import Mathlib

/-!
Verification development for the Instagram monitor/commenter bot
(`src/main.ts`, `src/bot.ts`, `src/config.ts`).

The TypeScript source is shallowly embedded: pure string/number parsing
becomes functions over `List Char`, `Int` and `ℚ`; JavaScript numbers are
modelled as exact rationals (the inputs involved are small decimal
literals); browser observations, thrown exceptions and external results
(session launches, AI generation) are oracles supplied as explicit
arguments; file-system state (the profile-stats CSV, the fingerprint file)
is explicit data threaded through the functions.
-/

/-- One JS number, `parseInt`/`parseFloat` results: digits folded to `Nat`. -/
def digitsToNat (ds : List Char) : Nat :=
  ds.foldl (fun n c => n * 10 + (c.toNat - 48)) 0

/-- Embeds JS `s.includes(pat)`: `pat` occurs as a contiguous substring. -/
def listIncludes (pat : List Char) : List Char → Bool
  | [] => pat.isPrefixOf []
  | c :: rest => pat.isPrefixOf (c :: rest) || listIncludes pat rest

/-- JS `String.prototype.includes` on embedded strings. -/
def strIncludes (s pat : String) : Bool :=
  listIncludes pat.data s.data

/-- JS `String.prototype.trim`: strip whitespace from both ends. -/
def listTrim (l : List Char) : List Char :=
  ((l.dropWhile Char.isWhitespace).reverse.dropWhile Char.isWhitespace).reverse

/-- JS `text.replace(/,/g, '')`: remove every comma. -/
def stripCommas (l : List Char) : List Char :=
  l.filter (fun c => c ≠ ',')

/-- JS `text.split(' ')[0]`: the characters before the first space. -/
def firstWord (l : List Char) : List Char :=
  l.takeWhile (fun c => c ≠ ' ')

/-- Embeds JS `parseInt(s, 10)`: skip leading whitespace, optional sign,
then a nonempty digit run; `none` models `NaN`. -/
def jsParseInt (l : List Char) : Option Int :=
  let l1 := l.dropWhile Char.isWhitespace
  let sign : Int := match l1 with
    | '-' :: _ => -1
    | _ => 1
  let l2 : List Char := match l1 with
    | '-' :: r => r
    | '+' :: r => r
    | _ => l1
  let ds := l2.takeWhile Char.isDigit
  if ds.isEmpty then none else some (sign * (digitsToNat ds : Int))

/-- The exponent suffix of a JS float literal: `e`/`E`, optional sign,
digits; a malformed exponent is ignored (contributes `0`), as in
`parseFloat("1e")`. -/
def jsParseExpTail (l : List Char) : Int :=
  let sign : Int := match l with
    | '-' :: _ => -1
    | _ => 1
  let l1 : List Char := match l with
    | '-' :: r => r
    | '+' :: r => r
    | _ => l
  let ds := l1.takeWhile Char.isDigit
  if ds.isEmpty then 0 else sign * (digitsToNat ds : Int)

/-- Embeds JS `parseFloat(s)` on finite decimal literals: leading
whitespace, optional sign, digits with an optional fractional part and an
optional exponent; `none` models `NaN` (no digits found).  The special
`Infinity` keyword is not modelled; the monitored inputs are count texts. -/
def jsParseFloat (l : List Char) : Option ℚ :=
  let l0 := l.dropWhile Char.isWhitespace
  let sign : ℚ := match l0 with
    | '-' :: _ => -1
    | _ => 1
  let l1 : List Char := match l0 with
    | '-' :: r => r
    | '+' :: r => r
    | _ => l0
  let intDigits := l1.takeWhile Char.isDigit
  let rest1 := l1.dropWhile Char.isDigit
  let fracDigits : List Char := match rest1 with
    | '.' :: r => r.takeWhile Char.isDigit
    | _ => []
  let rest2 : List Char := match rest1 with
    | '.' :: r => r.dropWhile Char.isDigit
    | _ => rest1
  let expPart : Int := match rest2 with
    | 'e' :: r => jsParseExpTail r
    | 'E' :: r => jsParseExpTail r
    | _ => 0
  if intDigits.isEmpty ∧ fracDigits.isEmpty then none
  else
    let mant : ℚ :=
      (digitsToNat intDigits : ℚ) + (digitsToNat fracDigits : ℚ) / (10 : ℚ) ^ fracDigits.length
    some (sign * mant * (10 : ℚ) ^ expPart)

/-- JS `Math.round(x) = ⌊x + 1/2⌋`. -/
def jsRound (q : ℚ) : Int :=
  Rat.floor (q + 1 / 2)

/-- The cleaning step `text.toLowerCase().trim().replace(/,/g, '')` of `parseFollowerCount`
in `main.ts`. -/
def cleanFollowerText (text : String) : List Char :=
  stripCommas (listTrim (text.data.map Char.toLower))

/-- Embeds `parseFollowerCount` (`main.ts` lines 88-101): empty (falsy)
text and unparseable text give `null`; a cleaned text containing `k` gives
`Math.round(num * 1000)`; else containing `m` gives
`Math.round(num * 1000000)`; otherwise the parsed number itself. -/
def parseFollowerCount (text : String) : Option ℚ :=
  if text.data.isEmpty then none
  else
    let cleanedText := cleanFollowerText text
    match jsParseFloat cleanedText with
    | none => none
    | some num =>
      if cleanedText.contains 'k' then some ((jsRound (num * 1000) : Int) : ℚ)
      else if cleanedText.contains 'm' then some ((jsRound (num * 1000000) : Int) : ℚ)
      else some num

/-- The pair tracked per target (`ProfileStats` in `main.ts`): post count
from `parseInt`, follower count a JS number (possibly fractional when the
abbreviated text has no `k`/`m` suffix). -/
structure ProfileStats where
  postCount : Int
  followerCount : ℚ
deriving DecidableEq

/-- What the monitoring page shows for one target, one cycle: the oracle
for `getProfileStats`.  `navThrows` abstracts a throw in `page.goto` or the
`main` wait; `statsThrows` a throw from the stats-list wait onward (e.g. a
timeout); `postText`/`followerTitle`/`followerText` are the observed DOM
texts (`none` = element or attribute absent / `textContent` null). -/
structure PageView where
  navThrows : Bool
  unavailable : Bool
  isPrivate : Bool
  statsThrows : Bool
  postText : Option String
  followerTitle : Option String
  followerText : Option String
deriving DecidableEq

/-- The post-count parse in `getProfileStats` (`main.ts` lines 126-136):
`parseInt(postText.replace(/,/g, '').split(' ')[0], 10)`, with falsy text
and `NaN` giving up. -/
def postCountOf (pg : PageView) : Option Int :=
  match pg.postText with
  | none => none
  | some pt =>
    if pt.data.isEmpty then none
    else jsParseInt (firstWord (stripCommas pt.data))

/-- The follower-count parse in `getProfileStats` (`main.ts` lines
138-156): first `parseInt` of the `span[title]` attribute when present and
truthy, else `parseFollowerCount` of the first word of the comma-stripped
list-item text. -/
def followerCountOf (pg : PageView) : Option ℚ :=
  let fromTitle : Option ℚ :=
    match pg.followerTitle with
    | none => none
    | some t =>
      if t.data.isEmpty then none
      else
        match jsParseInt (stripCommas t.data) with
        | none => none
        | some n => some (n : ℚ)
  match fromTitle with
  | some n => some n
  | none =>
    match pg.followerText with
    | none => none
    | some ft =>
      if ft.data.isEmpty then none
      else parseFollowerCount (String.mk (firstWord (stripCommas ft.data)))

/-- Embeds `getProfileStats` (`main.ts` lines 103-172): any navigation
throw, the unavailable page, the private page, a stats-wait throw, or an
unparseable post or follower count gives `null`; otherwise the fetched
snapshot. -/
def getProfileStats (pg : PageView) : Option ProfileStats :=
  if pg.navThrows then none
  else if pg.unavailable then none
  else if pg.isPrivate then none
  else if pg.statsThrows then none
  else
    match postCountOf pg with
    | none => none
    | some p =>
      match followerCountOf pg with
      | none => none
      | some f => some ⟨p, f⟩

/-- One account entry of `config.ts` (`AccountConfig`). -/
structure AccountConfig where
  enabled : Bool
  username : String
  password : String
  aiPromptHint : Option String
  targets : List String
deriving DecidableEq

/-- The outcome of `launchBotForTask` in `main.ts`: the bot's tri-state
`InteractionResult`, or `LAUNCH_ERROR` when `initializeBotSession`
returned `null`. -/
inductive LaunchResult where
  | success
  | skipped
  | failed
  | launchError
deriving DecidableEq

/-- The test `runMonitorMode` applies to each launch outcome (`main.ts`
line 489): `FAILED` and `LAUNCH_ERROR` clear `allTasksSucceededOrSkipped`. -/
def taskFailed : LaunchResult → Bool
  | .failed => true
  | .launchError => true
  | _ => false

/-- JS `profileStats[username]`: first matching key of the in-memory map. -/
def lookupStats (m : List (String × ProfileStats)) (u : String) : Option ProfileStats :=
  match m.find? (fun e => e.1 == u) with
  | some e => some e.2
  | none => none

/-- JS `profileStats[username] = stats`: replace the first matching key,
else append (JS object key assignment, insertion-ordered). -/
def setStats : List (String × ProfileStats) → String → ProfileStats → List (String × ProfileStats)
  | [], u, s => [(u, s)]
  | e :: rest, u, s => if e.1 = u then (u, s) :: rest else e :: setStats rest u s

/-- Embeds `updateProfileStatsInCsv` (`main.ts` lines 62-86): rewrite the
first CSV row starting with `username,` to the new entry, else append it.
Rows are kept structured; usernames carry no commas. -/
def updateProfileStatsInCsv : List (String × ProfileStats) → String → ProfileStats → List (String × ProfileStats)
  | [], u, s => [(u, s)]
  | e :: rest, u, s =>
    if e.1 = u then (u, s) :: rest else e :: updateProfileStatsInCsv rest u s

/-- The monitor's persistent view: the in-memory `profileStats` map and
the rows of `profile_stats.csv`. -/
structure MonitorState where
  stats : List (String × ProfileStats)
  csv : List (String × ProfileStats)
deriving DecidableEq

/-- The two-part commit in `runMonitorMode`:
`profileStats[target] = currentStats` followed by
`updateProfileStatsInCsv`. -/
def commitStats (st : MonitorState) (target : String) (cur : ProfileStats) : MonitorState :=
  ⟨setStats st.stats target cur, updateProfileStatsInCsv st.csv target cur⟩

/-- The visible effects of one target's check in one monitoring cycle. -/
structure TargetOutcome where
  state : MonitorState
  launched : List (AccountConfig × LaunchResult)
  csvWrites : List (String × ProfileStats)
deriving DecidableEq

/-- Embeds the per-target body of `runMonitorMode`'s cycle (`main.ts`
lines 443-531).  `fetched` is `getProfileStats`'s result, `subscribed` the
`targetMap` entry for this target, and `results` the oracle giving each
sequential `launchBotForTask` call's outcome in order (the loop launches
one task per subscribed account and never stops early).  The snapshot is
committed on first observation, on a post-count decrease, on a
follower-count change, and on an increase only when no launch came back
`FAILED` or `LAUNCH_ERROR`. -/
def processTarget (st : MonitorState) (target : String) (subscribed : List AccountConfig)
    (fetched : Option ProfileStats) (results : List LaunchResult) : TargetOutcome :=
  match fetched with
  | none => ⟨st, [], []⟩
  | some cur =>
    match lookupStats st.stats target with
    | none => ⟨commitStats st target cur, [], [(target, cur)]⟩
    | some prev =>
      if prev.postCount < cur.postCount then
        let launched := subscribed.zip results
        if launched.all (fun p => !taskFailed p.2) then
          ⟨commitStats st target cur, launched, [(target, cur)]⟩
        else ⟨st, launched, []⟩
      else if cur.postCount < prev.postCount then
        ⟨commitStats st target cur, [], [(target, cur)]⟩
      else if cur.followerCount ≠ prev.followerCount then
        ⟨commitStats st target cur, [], [(target, cur)]⟩
      else ⟨st, [], []⟩

/-- The tri-state task outcome (`bot.ts` line 9). -/
inductive InteractionResult where
  | success
  | skipped
  | failed
deriving DecidableEq

/-- What the target's page shows during `runCommentTask`, plus which
awaited steps throw: the oracle for one task execution.  `navThrows`
covers the profile `goto`/wait; `openThrows` the post click and dialog
wait; `captionThrows`/`mediaThrows` the internally caught extraction
failures; `aiThrows` a failing AI generation; `typingThrows` the approach
and typing steps; `submitThrows` the submit click and the wait after it.
`imageCandidates` lists, per image-location strategy in order, whether a
visible candidate exists and its `src`. -/
structure TaskEnv where
  navThrows : Bool
  isPrivate : Bool
  totalPostCount : Nat
  nonPinnedCount : Nat
  openThrows : Bool
  captionThrows : Bool
  captionVisible : Bool
  caption : String
  videoError : Bool
  videoElem : Bool
  capturedVideoUrl : Option String
  imageCandidates : List (Bool × Option String)
  mediaThrows : Bool
  aiThrows : Bool
  aiComment : String
  commentAreaExists : Bool
  typingThrows : Bool
  postButtonExists : Bool
  postButtonEnabled : Bool
  submitThrows : Bool
  verifyVisible : Bool
deriving DecidableEq

/-- The observable side effects of one `runCommentTask` call:
`capturingVideo` is the bot's `isCapturingVideo` flag, `logEntries` the
appended `interaction_log.csv` lines (target, comment), `screenshots` the
number of diagnostic screenshots, `aiCall` the arguments of the AI
request when one was made (caption, image URL, video URL). -/
structure Trace where
  postsEnumerated : Bool := false
  capturingVideo : Bool := false
  captionExtracted : Bool := false
  mediaExtracted : Bool := false
  aiCall : Option (String × Option String × Option String) := none
  submitClicked : Bool := false
  logEntries : List (String × String) := []
  screenshots : Nat := 0
deriving DecidableEq

/-- The first image strategy with a visible candidate whose `src` is
truthy and matches no placeholder pattern (`bot.ts` lines 345-360);
rejected candidates fall through to the next strategy. -/
def extractImage : List (Bool × Option String) → Option String
  | [] => none
  | (vis, src) :: rest =>
    if vis then
      match src with
      | some s =>
        if ¬s.data.isEmpty ∧ strIncludes s "static" = false ∧ strIncludes s "sprite" = false
        then some s
        else extractImage rest
      | none => extractImage rest
    else extractImage rest

/-- The media-extraction step (`bot.ts` lines 323-368): a video marker
classifies the post as video and uses the captured URL if any; otherwise
the image strategies are probed; its own failures are caught. -/
def extractMedia (env : TaskEnv) : Option String × Option String :=
  if env.mediaThrows then (none, none)
  else if env.videoError || env.videoElem then (none, env.capturedVideoUrl)
  else (extractImage env.imageCandidates, none)

/-- The `try` body of `runCommentTask` (`bot.ts` lines 262-422), stepped
through with the trace of effects so far; `Except.error` is an uncaught
exception escaping the body with that trace. -/
def runCommentTaskAux (env : TaskEnv) (target : String) : Except Trace (InteractionResult × Trace) :=
  let tr : Trace := {}
  if env.navThrows then .error tr
  else if env.isPrivate then .ok (.skipped, tr)
  else
    let tr : Trace := { tr with postsEnumerated := true }
    if env.nonPinnedCount = 0 then
      .ok (.skipped, { tr with screenshots := tr.screenshots + 1 })
    else
      let tr : Trace := { tr with capturingVideo := true }
      if env.openThrows then .error tr
      else
        let caption : String :=
          if env.captionThrows then ""
          else if env.captionVisible then env.caption else ""
        let tr : Trace := { tr with captionExtracted := true }
        let media := extractMedia env
        let tr : Trace := { tr with mediaExtracted := true }
        let tr : Trace := { tr with aiCall := some (caption, media.1, media.2) }
        if env.aiThrows then .error tr
        else if !env.commentAreaExists then
          .ok (.skipped, { tr with screenshots := tr.screenshots + 1 })
        else if env.typingThrows then .error tr
        else if !env.postButtonExists || !env.postButtonEnabled then
          .ok (.failed, { tr with screenshots := tr.screenshots + 1 })
        else
          let tr : Trace := { tr with submitClicked := true }
          if env.submitThrows then .error tr
          else if env.verifyVisible then
            .ok (.success, { tr with logEntries := tr.logEntries ++ [(target, env.aiComment)] })
          else
            .ok (.success, { tr with logEntries := tr.logEntries ++ [(target, env.aiComment)] })

/-- Embeds `runCommentTask` (`bot.ts` lines 259-430): the `catch` turns
any escaped exception into `FAILED` with a diagnostic screenshot, and the
`finally` clears `isCapturingVideo` on every exit path. -/
def runCommentTask (env : TaskEnv) (target : String) : InteractionResult × Trace :=
  match runCommentTaskAux env target with
  | .ok (r, tr) => (r, { tr with capturingVideo := false })
  | .error tr => (.failed, { tr with screenshots := tr.screenshots + 1, capturingVideo := false })

/-- Embeds the fingerprint load-or-create step of `initializeBotSession`
(`main.ts` lines 183-191) for one account, polymorphic in the fingerprint
record: `file` is the persisted file's content (if the file exists) and
`fresh` the record `generateFingerprint()` would produce.  Returns the
fingerprint used, the file content afterwards, and whether a new
fingerprint was generated and written. -/
def loadOrCreateFingerprint {Fp : Type} (file : Option Fp) (fresh : Fp) : Fp × Option Fp × Bool :=
  match file with
  | some fp => (fp, some fp, false)
  | none => (fresh, some fresh, true)

/-- The account `runTestCommentMode` (`main.ts` lines 282-324) launches a
session for, if any: a named account must exist, be enabled and have a
target; with no name, the first enabled account is used. -/
def testCommentAccount (accounts : List AccountConfig) (testUsername : Option String) :
    Option AccountConfig :=
  let chosen : Option AccountConfig :=
    match testUsername with
    | some u =>
      match accounts.find? (fun acc => acc.username == u) with
      | none => none
      | some acc => if acc.enabled then some acc else none
    | none => accounts.find? (fun acc => acc.enabled)
  match chosen with
  | none => none
  | some acc => if acc.targets.isEmpty then none else some acc

/-- The accounts `runCheckAccountsMode` (`main.ts` lines 339-375) opens
sessions for, in order. -/
def checkAccountsSessions (accounts : List AccountConfig) : List AccountConfig :=
  accounts.filter (fun acc => acc.enabled)

/-- The standing monitoring account of `runMonitorMode` (`main.ts` line
423): the first enabled account, when one exists. -/
def monitorAccount (accounts : List AccountConfig) : Option AccountConfig :=
  (accounts.filter (fun acc => acc.enabled)).head?

/-- One `targetMap.get(t)!.push(..)` step after
`if (!targetMap.has(t)) targetMap.set(t, [])` (`main.ts` lines 390-393):
append to the first entry with this key, else add a new entry. -/
def pushTask (m : List (String × List AccountConfig)) (t : String) (acc : AccountConfig) :
    List (String × List AccountConfig) :=
  match m with
  | [] => [(t, [acc])]
  | e :: rest => if e.1 = t then (e.1, e.2 ++ [acc]) :: rest else e :: pushTask rest t acc

/-- The `targetMap` construction of `runMonitorMode` (`main.ts` lines
388-395): every account is pushed under each of its targets, in
configuration order.  The filter to enabled accounts happens at line 381. -/
def buildTargetMap (accounts : List AccountConfig) : List (String × List AccountConfig) :=
  accounts.foldl (fun m acc => acc.targets.foldl (fun m2 t => pushTask m2 t acc) m) []

/-- The map `runMonitorMode` actually builds: from the enabled accounts
only. -/
def monitorTargetMap (accounts : List AccountConfig) : List (String × List AccountConfig) :=
  buildTargetMap (accounts.filter (fun acc => acc.enabled))

theorem cleanFollowerText_of_empty {text : String} (h : text.data.isEmpty = true) :
    cleanFollowerText text = [] := by
  have hd : text.data = [] := by
    cases hdat : text.data with
    | nil => rfl
    | cons c cs => rw [hdat] at h; simp [List.isEmpty] at h
  simp [cleanFollowerText, listTrim, stripCommas, hd]

/-- C10: `parseFollowerCount` maps abbreviated follower-count text to an
exact number: after lowercasing, trimming and comma-stripping, a
non-numeric or empty text gives `null`; a cleaned text containing `k`
gives `round(n * 1000)`; else one containing `m` gives
`round(n * 1000000)`; plain numeric text gives the parsed number. -/
theorem parseFollowerCount_spec :
    (∀ text : String, text.data.isEmpty = true → parseFollowerCount text = none) ∧
    (∀ text : String, jsParseFloat (cleanFollowerText text) = none →
      parseFollowerCount text = none) ∧
    (∀ (text : String) (n : ℚ), jsParseFloat (cleanFollowerText text) = some n →
      (cleanFollowerText text).contains 'k' = true →
      parseFollowerCount text = some ((jsRound (n * 1000) : Int) : ℚ)) ∧
    (∀ (text : String) (n : ℚ), jsParseFloat (cleanFollowerText text) = some n →
      (cleanFollowerText text).contains 'k' = false →
      (cleanFollowerText text).contains 'm' = true →
      parseFollowerCount text = some ((jsRound (n * 1000000) : Int) : ℚ)) ∧
    (∀ (text : String) (n : ℚ), jsParseFloat (cleanFollowerText text) = some n →
      (cleanFollowerText text).contains 'k' = false →
      (cleanFollowerText text).contains 'm' = false →
      parseFollowerCount text = some n) := by
  have hempty : ∀ (text : String) (n : ℚ), jsParseFloat (cleanFollowerText text) = some n →
      text.data.isEmpty = false := by
    intro text n hp
    cases he : text.data.isEmpty
    · rfl
    · rw [cleanFollowerText_of_empty he] at hp
      rw [show jsParseFloat ([] : List Char) = none from by decide] at hp
      exact Option.noConfusion hp
  refine ⟨?_, ?_, ?_, ?_, ?_⟩
  · intro text h
    simp [parseFollowerCount, h]
  · intro text h
    cases he : text.data.isEmpty
    · simp [parseFollowerCount, he, h]
    · simp [parseFollowerCount, he]
  · intro text n hp hk
    have hk2 : 'k' ∈ cleanFollowerText text := by simpa using hk
    simp [parseFollowerCount, hempty text n hp, hp, hk2]
  · intro text n hp hk hm
    have hk2 : 'k' ∉ cleanFollowerText text := by simpa using hk
    have hm2 : 'm' ∈ cleanFollowerText text := by simpa using hm
    simp [parseFollowerCount, hempty text n hp, hp, hk2, hm2]
  · intro text n hp hk hm
    have hk2 : 'k' ∉ cleanFollowerText text := by simpa using hk
    have hm2 : 'm' ∉ cleanFollowerText text := by simpa using hm
    simp [parseFollowerCount, hempty text n hp, hp, hk2, hm2]

/-- C2: with no prior snapshot for the target, a successful fetch is
committed immediately (map and CSV) and no response task is launched,
whatever the fetched counts are. -/
theorem monitor_first_observation (st : MonitorState) (target : String)
    (subscribed : List AccountConfig) (cur : ProfileStats) (results : List LaunchResult)
    (hnone : lookupStats st.stats target = none) :
    processTarget st target subscribed (some cur) results =
      ⟨commitStats st target cur, [], [(target, cur)]⟩ := by
  simp [processTarget, hnone]

/-- C3: with a prior snapshot and no post-count increase, no task is
launched; a decrease or a follower-count change commits the fetched
snapshot; with both counts unchanged nothing is written at all. -/
theorem monitor_no_new_post (st : MonitorState) (target : String)
    (subscribed : List AccountConfig) (cur prev : ProfileStats) (results : List LaunchResult)
    (hprev : lookupStats st.stats target = some prev)
    (hle : cur.postCount ≤ prev.postCount) :
    (processTarget st target subscribed (some cur) results).launched = [] ∧
    (cur.postCount < prev.postCount →
      processTarget st target subscribed (some cur) results =
        ⟨commitStats st target cur, [], [(target, cur)]⟩) ∧
    (cur.postCount = prev.postCount → cur.followerCount ≠ prev.followerCount →
      processTarget st target subscribed (some cur) results =
        ⟨commitStats st target cur, [], [(target, cur)]⟩) ∧
    (cur.postCount = prev.postCount → cur.followerCount = prev.followerCount →
      processTarget st target subscribed (some cur) results = ⟨st, [], []⟩) := by
  have hnotinc : ¬(prev.postCount < cur.postCount) := not_lt.mpr hle
  refine ⟨?_, ?_, ?_, ?_⟩
  · by_cases hdec : cur.postCount < prev.postCount
    · simp [processTarget, hprev, hnotinc, hdec]
    · by_cases hf : cur.followerCount = prev.followerCount
      · simp [processTarget, hprev, hnotinc, hdec, hf]
      · simp [processTarget, hprev, hnotinc, hdec, hf]
  · intro hdec
    simp [processTarget, hprev, hnotinc, hdec]
  · intro heq hf
    have hdec : ¬(cur.postCount < prev.postCount) := by omega
    simp [processTarget, hprev, hnotinc, hdec, hf]
  · intro heq hf
    have hdec : ¬(cur.postCount < prev.postCount) := by omega
    simp [processTarget, hprev, hnotinc, hdec, hf]

/-- C8: the fingerprint step of `initializeBotSession` loads the
persisted record untouched when one exists, generates and persists only
when none exists, and a repeated initialization returns the identical
fingerprint without generating a new one. -/
theorem loadOrCreateFingerprint_idempotent {Fp : Type} (file : Option Fp) (f1 f2 : Fp) :
    (∀ fp : Fp, file = some fp → loadOrCreateFingerprint file f1 = (fp, some fp, false)) ∧
    (file = none → loadOrCreateFingerprint file f1 = (f1, some f1, true)) ∧
    loadOrCreateFingerprint (loadOrCreateFingerprint file f1).2.1 f2 =
      ((loadOrCreateFingerprint file f1).1, (loadOrCreateFingerprint file f1).2.1, false) := by
  cases file <;> simp [loadOrCreateFingerprint]

theorem zip_all_snd {α β : Type} (f : β → Bool) :
    ∀ (l1 : List α) (l2 : List β), l1.length = l2.length →
      ((l1.zip l2).all fun p => f p.2) = l2.all f := by
  intro l1
  induction l1 with
  | nil =>
    intro l2 h
    cases l2 with
    | nil => rfl
    | cons b bs => simp at h
  | cons a as ih =>
    intro l2 h
    cases l2 with
    | nil => simp at h
    | cons b bs =>
      simp only [List.zip_cons_cons, List.all_cons]
      rw [ih bs (by simpa using h)]

theorem not_taskFailed_iff (r : LaunchResult) :
    (!taskFailed r) = true ↔ r = .success ∨ r = .skipped := by
  cases r <;> simp [taskFailed]

theorem all_succeeded_or_skipped_iff (results : List LaunchResult) :
    (results.all fun r => !taskFailed r) = true ↔
      ∀ r ∈ results, r = .success ∨ r = .skipped := by
  rw [List.all_eq_true]
  exact forall₂_congr fun r _ => not_taskFailed_iff r

/-- C1: on a detected post-count increase, one task is launched per
subscribed account, in subscription order, and the fetched snapshot is
committed (map and CSV) exactly when every launch came back `SUCCESS` or
`SKIPPED`; one `FAILED` or `LAUNCH_ERROR` leaves the whole state — in
particular this target's persisted snapshot — untouched. -/
theorem monitor_new_post_commit (st : MonitorState) (target : String)
    (subscribed : List AccountConfig) (cur prev : ProfileStats) (results : List LaunchResult)
    (hprev : lookupStats st.stats target = some prev)
    (hinc : prev.postCount < cur.postCount)
    (hlen : subscribed.length = results.length) :
    (processTarget st target subscribed (some cur) results).launched.map Prod.fst = subscribed ∧
    (processTarget st target subscribed (some cur) results).launched.map Prod.snd = results ∧
    ((∀ r ∈ results, r = .success ∨ r = .skipped) →
      processTarget st target subscribed (some cur) results =
        ⟨commitStats st target cur, subscribed.zip results, [(target, cur)]⟩) ∧
    ((∃ r ∈ results, r = .failed ∨ r = .launchError) →
      processTarget st target subscribed (some cur) results =
        ⟨st, subscribed.zip results, []⟩ ∧
      lookupStats (processTarget st target subscribed (some cur) results).state.stats target =
        some prev ∧
      (processTarget st target subscribed (some cur) results).state.csv = st.csv) := by
  have hall : ((subscribed.zip results).all fun p => !taskFailed p.2) =
      (results.all fun r => !taskFailed r) :=
    zip_all_snd (fun r => !taskFailed r) subscribed results hlen
  have hproc : processTarget st target subscribed (some cur) results =
      if (results.all fun r => !taskFailed r) = true then
        ⟨commitStats st target cur, subscribed.zip results, [(target, cur)]⟩
      else ⟨st, subscribed.zip results, []⟩ := by
    simp only [processTarget, hprev, hall]
    rw [if_pos hinc]
  refine ⟨?_, ?_, ?_, ?_⟩
  · rw [hproc]
    cases h : (results.all fun r => !taskFailed r) <;>
      simp [List.map_fst_zip subscribed results (le_of_eq hlen)]
  · rw [hproc]
    cases h : (results.all fun r => !taskFailed r) <;>
      simp [List.map_snd_zip subscribed results (ge_of_eq hlen)]
  · intro hok
    rw [hproc, if_pos ((all_succeeded_or_skipped_iff results).mpr hok)]
  · intro hbad
    have hfalse : (results.all fun r => !taskFailed r) = false := by
      cases h : (results.all fun r => !taskFailed r)
      · rfl
      · obtain ⟨r, hr, hcase⟩ := hbad
        have := (all_succeeded_or_skipped_iff results).mp h r hr
        rcases hcase with h1 | h1 <;> rcases this with h2 | h2 <;> simp [h1] at h2
    rw [hproc, if_neg (by simp [hfalse])]
    exact ⟨rfl, hprev, rfl⟩

/-- C4: a fetch failure — navigation error, unavailable page, private
page, stats-wait failure, or an unparseable post or follower count — is
exactly when `getProfileStats` yields `null`, and on `null` the monitor
leaves the snapshot map and the CSV untouched and launches nothing. -/
theorem monitor_skip_on_fetch_failure (pg : PageView) (st : MonitorState) (target : String)
    (subscribed : List AccountConfig) (results : List LaunchResult) :
    (getProfileStats pg = none ↔
      (pg.navThrows = true ∨ pg.unavailable = true ∨ pg.isPrivate = true ∨
       pg.statsThrows = true ∨ postCountOf pg = none ∨ followerCountOf pg = none)) ∧
    (getProfileStats pg = none →
      processTarget st target subscribed (getProfileStats pg) results = ⟨st, [], []⟩) := by
  constructor
  · unfold getProfileStats
    cases h1 : pg.navThrows <;> cases h2 : pg.unavailable <;> cases h3 : pg.isPrivate <;>
      cases h4 : pg.statsThrows <;>
      cases h5 : postCountOf pg <;> cases h6 : followerCountOf pg <;> simp [h5, h6]
  · intro h
    rw [h]
    rfl

/-- C5: on a profile classified private, `runCommentTask` returns
`SKIPPED` immediately: no posts were enumerated, no caption or media
extracted, the AI generator was never called, nothing was logged. -/
theorem runCommentTask_private_skipped (env : TaskEnv) (target : String)
    (hnav : env.navThrows = false) (hpriv : env.isPrivate = true) :
    runCommentTask env target =
      (.skipped,
        { postsEnumerated := false, capturingVideo := false, captionExtracted := false,
          mediaExtracted := false, aiCall := none, submitClicked := false,
          logEntries := [], screenshots := 0 }) := by
  simp [runCommentTask, runCommentTaskAux, hnav, hpriv]

/-- C6: once the submit control is clicked and the click did not throw,
both post-submission branches return `SUCCESS` and append exactly one
interaction log entry; whether the comment is found visible afterwards
changes nothing observable about the call's outcome. -/
theorem runCommentTask_submit_success (env : TaskEnv) (target : String)
    (h1 : env.navThrows = false) (h2 : env.isPrivate = false)
    (h3 : env.nonPinnedCount ≠ 0) (h4 : env.openThrows = false)
    (h5 : env.aiThrows = false) (h6 : env.commentAreaExists = true)
    (h7 : env.typingThrows = false) (h8 : env.postButtonExists = true)
    (h9 : env.postButtonEnabled = true) (h10 : env.submitThrows = false) :
    (runCommentTask env target).1 = .success ∧
    (runCommentTask env target).2.logEntries = [(target, env.aiComment)] ∧
    (runCommentTask env target).2.submitClicked = true ∧
    runCommentTask { env with verifyVisible := true } target =
      runCommentTask { env with verifyVisible := false } target := by
  refine ⟨?_, ?_, ?_, ?_⟩ <;>
    simp [runCommentTask, runCommentTaskAux, extractMedia,
      h1, h2, h3, h4, h5, h6, h7, h8, h9, h10]

/-- C7: every exception escaping the task body is caught and turned into
`FAILED` with one more diagnostic screenshot, and on every exit path of
`runCommentTask` the video-capture flag is false when the call returns. -/
theorem runCommentTask_catch_and_cleanup (env : TaskEnv) (target : String) (tr : Trace) :
    (runCommentTaskAux env target = .error tr →
      runCommentTask env target =
        (.failed, { tr with screenshots := tr.screenshots + 1, capturingVideo := false })) ∧
    (runCommentTask env target).2.capturingVideo = false := by
  constructor
  · intro h
    simp [runCommentTask, h]
  · unfold runCommentTask
    cases haux : runCommentTaskAux env target with
    | ok p => simp
    | error t => simp

theorem pushTask_mem {m : List (String × List AccountConfig)} {t : String}
    {acc a : AccountConfig} {e : String × List AccountConfig}
    (he : e ∈ pushTask m t acc) (ha : a ∈ e.2) :
    a = acc ∨ ∃ e2 ∈ m, a ∈ e2.2 := by
  induction m with
  | nil =>
    simp [pushTask] at he
    subst he
    simp at ha
    exact Or.inl ha
  | cons e0 rest ih =>
    by_cases hcase : e0.1 = t
    · simp only [pushTask, if_pos hcase] at he
      rcases List.mem_cons.mp he with h | h
      · subst h
        simp at ha
        rcases ha with h2 | h2
        · exact Or.inr ⟨e0, List.mem_cons_self e0 rest, h2⟩
        · exact Or.inl h2
      · exact Or.inr ⟨e, List.mem_cons_of_mem e0 h, ha⟩
    · simp only [pushTask, if_neg hcase] at he
      rcases List.mem_cons.mp he with h | h
      · subst h
        exact Or.inr ⟨e, List.mem_cons_self e rest, ha⟩
      · rcases ih h with h2 | ⟨e2, he2, ha2⟩
        · exact Or.inl h2
        · exact Or.inr ⟨e2, List.mem_cons_of_mem e0 he2, ha2⟩

theorem foldl_pushTask_mem {acc a : AccountConfig} :
    ∀ (ts : List String) (m : List (String × List AccountConfig))
      (e : String × List AccountConfig),
      e ∈ ts.foldl (fun m2 t => pushTask m2 t acc) m → a ∈ e.2 →
      a = acc ∨ ∃ e2 ∈ m, a ∈ e2.2 := by
  intro ts
  induction ts with
  | nil =>
    intro m e he ha
    exact Or.inr ⟨e, he, ha⟩
  | cons t ts ih =>
    intro m e he ha
    rcases ih (pushTask m t acc) e he ha with h | ⟨e2, he2, ha2⟩
    · exact Or.inl h
    · exact pushTask_mem he2 ha2

theorem buildTargetMap_mem :
    ∀ (accounts : List AccountConfig) (m : List (String × List AccountConfig))
      (e : String × List AccountConfig) (a : AccountConfig),
      e ∈ accounts.foldl (fun m2 acc => acc.targets.foldl (fun m3 t => pushTask m3 t acc) m2) m →
      a ∈ e.2 → a ∈ accounts ∨ ∃ e2 ∈ m, a ∈ e2.2 := by
  intro accounts
  induction accounts with
  | nil =>
    intro m e a he ha
    exact Or.inr ⟨e, he, ha⟩
  | cons acc accts ih =>
    intro m e a he ha
    rcases ih _ e a he ha with h | ⟨e2, he2, ha2⟩
    · exact Or.inl (List.mem_cons_of_mem acc h)
    · rcases foldl_pushTask_mem acc.targets m e2 he2 ha2 with h2 | h2
      · exact Or.inl (h2 ▸ List.mem_cons_self acc accts)
      · exact Or.inr h2

/-- C9: in every operating mode a browser session is only initialized for
an enabled account: the test-comment account is enabled, every
check-accounts session account is enabled, the standing monitor account is
enabled, and every account a monitor-cycle task can be launched for (any
member of any `targetMap` entry) is enabled. -/
theorem sessions_only_for_enabled_accounts :
    (∀ (accounts : List AccountConfig) (u : Option String) (acc : AccountConfig),
      testCommentAccount accounts u = some acc → acc.enabled = true) ∧
    (∀ (accounts : List AccountConfig) (acc : AccountConfig),
      acc ∈ checkAccountsSessions accounts → acc.enabled = true) ∧
    (∀ (accounts : List AccountConfig) (acc : AccountConfig),
      monitorAccount accounts = some acc → acc.enabled = true) ∧
    (∀ (accounts : List AccountConfig) (e : String × List AccountConfig)
      (acc : AccountConfig),
      e ∈ monitorTargetMap accounts → acc ∈ e.2 → acc.enabled = true) := by
  refine ⟨?_, ?_, ?_, ?_⟩
  · intro accounts u acc h
    cases u with
    | some name =>
      cases hf : accounts.find? (fun a2 => a2.username == name) with
      | none => simp [testCommentAccount, hf] at h
      | some a0 =>
        by_cases hen : a0.enabled = true
        · by_cases ht : a0.targets.isEmpty = true
          · simp [testCommentAccount, hf, hen, ht] at h
          · simp [testCommentAccount, hf, hen, ht] at h
            exact h ▸ hen
        · simp [testCommentAccount, hf, hen] at h
    | none =>
      cases hf : accounts.find? (fun a2 => a2.enabled) with
      | none => simp [testCommentAccount, hf] at h
      | some a0 =>
        by_cases ht : a0.targets.isEmpty = true
        · simp [testCommentAccount, hf, ht] at h
        · simp [testCommentAccount, hf, ht] at h
          exact h ▸ List.find?_some hf
  · intro accounts acc h
    exact (List.mem_filter.mp h).2
  · intro accounts acc h
    unfold monitorAccount at h
    cases hf : accounts.filter (fun a2 => a2.enabled) with
    | nil => rw [hf] at h; exact Option.noConfusion h
    | cons x xs =>
      rw [hf] at h
      simp at h
      have hx : x ∈ accounts.filter (fun a2 => a2.enabled) := by
        rw [hf]; exact List.mem_cons_self x xs
      exact h ▸ (List.mem_filter.mp hx).2
  · intro accounts e acc he ha
    have := buildTargetMap_mem (accounts.filter (fun a => a.enabled)) [] e acc he ha
    rcases this with h | ⟨e2, he2, _⟩
    · exact (List.mem_filter.mp h).2
    · exact absurd he2 (List.not_mem_nil e2)

section ConcreteEvaluation

attribute [local semireducible] Rat.mul Rat.add Rat.inv Rat.sub

example : parseFollowerCount "12.5k" = some 12500 := by decide
example : parseFollowerCount "1.2M" = some 1200000 := by decide
example : parseFollowerCount "1,234" = some 1234 := by decide
example : parseFollowerCount "abc" = none := by decide
example : parseFollowerCount "" = none := by decide

/-- C10 witness: the `k` branch at the concrete text `"12.5k"`. -/
theorem parseFollowerCount_spec_witness :
    parseFollowerCount "12.5k" = some ((jsRound ((25 / 2 : ℚ) * 1000) : Int) : ℚ) :=
  parseFollowerCount_spec.2.2.1 "12.5k" (25 / 2) (by decide) (by decide)

end ConcreteEvaluation

/-- C1 witness: prior 5 posts, fetched 6, one subscribed account whose
task succeeds: the snapshot is committed. -/
theorem monitor_new_post_commit_witness :
    processTarget ⟨[("t", ⟨5, 100⟩)], [("t", ⟨5, 100⟩)]⟩ "t"
        [⟨true, "a", "pw", none, ["t"]⟩] (some ⟨6, 100⟩) [LaunchResult.success] =
      ⟨commitStats ⟨[("t", ⟨5, 100⟩)], [("t", ⟨5, 100⟩)]⟩ "t" ⟨6, 100⟩,
        [⟨true, "a", "pw", none, ["t"]⟩].zip [LaunchResult.success], [("t", ⟨6, 100⟩)]⟩ :=
  (monitor_new_post_commit ⟨[("t", ⟨5, 100⟩)], [("t", ⟨5, 100⟩)]⟩ "t"
      [⟨true, "a", "pw", none, ["t"]⟩] ⟨6, 100⟩ ⟨5, 100⟩ [LaunchResult.success]
      (by decide) (by decide) (by decide)).2.2.1 (by decide)

/-- C2 witness: the spec's example — no prior snapshot, fetched
`{postCount: 5, followerCount: 100}`: committed, zero tasks. -/
theorem monitor_first_observation_witness :
    processTarget ⟨[], []⟩ "t" [] (some ⟨5, 100⟩) [] =
      ⟨commitStats ⟨[], []⟩ "t" ⟨5, 100⟩, [], [("t", ⟨5, 100⟩)]⟩ :=
  monitor_first_observation ⟨[], []⟩ "t" [] ⟨5, 100⟩ [] (by decide)

/-- C3 witness: prior 6 posts, fetched 4 (deletions): committed, zero
tasks. -/
theorem monitor_no_new_post_witness :
    processTarget ⟨[("t", ⟨6, 100⟩)], [("t", ⟨6, 100⟩)]⟩ "t" [] (some ⟨4, 100⟩) [] =
      ⟨commitStats ⟨[("t", ⟨6, 100⟩)], [("t", ⟨6, 100⟩)]⟩ "t" ⟨4, 100⟩, [],
        [("t", ⟨4, 100⟩)]⟩ :=
  (monitor_no_new_post ⟨[("t", ⟨6, 100⟩)], [("t", ⟨6, 100⟩)]⟩ "t" [] ⟨4, 100⟩ ⟨6, 100⟩ []
      (by decide) (by decide)).2.1 (by decide)

/-- C4 witness: a private profile page: `getProfileStats` is `null` and
the cycle's state is untouched. -/
theorem monitor_skip_on_fetch_failure_witness :
    processTarget ⟨[], []⟩ "t" []
        (getProfileStats ⟨false, false, true, false, none, none, none⟩) [] =
      ⟨⟨[], []⟩, [], []⟩ :=
  (monitor_skip_on_fetch_failure ⟨false, false, true, false, none, none, none⟩
      ⟨[], []⟩ "t" [] []).2 (by decide)

/-- C5 witness: a private target's task run at a concrete environment. -/
theorem runCommentTask_private_skipped_witness :
    runCommentTask ⟨false, true, 0, 0, false, false, false, "", false, false, none, [],
        false, false, "", false, false, false, false, false, false⟩ "t" =
      (.skipped,
        { postsEnumerated := false, capturingVideo := false, captionExtracted := false,
          mediaExtracted := false, aiCall := none, submitClicked := false,
          logEntries := [], screenshots := 0 }) :=
  runCommentTask_private_skipped _ "t" rfl rfl

/-- C6 witness: a full successful run at a concrete environment. -/
theorem runCommentTask_submit_success_witness :
    (runCommentTask ⟨false, false, 3, 2, false, false, true, "cap", false, false, none,
        [(true, some "img-url")], false, false, "nice post", true, false, true, true,
        false, true⟩ "t").1 = InteractionResult.success ∧
    (runCommentTask ⟨false, false, 3, 2, false, false, true, "cap", false, false, none,
        [(true, some "img-url")], false, false, "nice post", true, false, true, true,
        false, true⟩ "t").2.logEntries = [("t", "nice post")] ∧
    (runCommentTask ⟨false, false, 3, 2, false, false, true, "cap", false, false, none,
        [(true, some "img-url")], false, false, "nice post", true, false, true, true,
        false, true⟩ "t").2.submitClicked = true ∧
    runCommentTask ⟨false, false, 3, 2, false, false, true, "cap", false, false, none,
        [(true, some "img-url")], false, false, "nice post", true, false, true, true,
        false, true⟩ "t" =
      runCommentTask ⟨false, false, 3, 2, false, false, true, "cap", false, false, none,
        [(true, some "img-url")], false, false, "nice post", true, false, true, true,
        false, false⟩ "t" :=
  runCommentTask_submit_success ⟨false, false, 3, 2, false, false, true, "cap", false,
      false, none, [(true, some "img-url")], false, false, "nice post", true, false, true,
      true, false, true⟩ "t" rfl rfl (by decide) rfl rfl rfl rfl rfl rfl rfl

/-- C7 witness: a navigation throw at a concrete environment becomes
`FAILED` with one screenshot and a cleared capture flag. -/
theorem runCommentTask_catch_and_cleanup_witness :
    runCommentTask ⟨true, false, 0, 0, false, false, false, "", false, false, none, [],
        false, false, "", false, false, false, false, false, false⟩ "t" =
      (.failed, { screenshots := 1 }) :=
  (runCommentTask_catch_and_cleanup ⟨true, false, 0, 0, false, false, false, "", false,
      false, none, [], false, false, "", false, false, false, false, false, false⟩ "t"
      {}).1 rfl

/-- C8 witness: an existing persisted fingerprint (over `Nat` records) is
returned untouched. -/
theorem loadOrCreateFingerprint_idempotent_witness :
    loadOrCreateFingerprint (some 7) (3 : Nat) = (7, some 7, false) :=
  (loadOrCreateFingerprint_idempotent (some 7) 3 0).1 7 rfl

/-- C9 witness: the test-comment mode at a one-account configuration picks
an enabled account. -/
theorem sessions_only_for_enabled_accounts_witness :
    (⟨true, "a", "pw", none, ["t"]⟩ : AccountConfig).enabled = true :=
  sessions_only_for_enabled_accounts.1 [⟨true, "a", "pw", none, ["t"]⟩] none
    ⟨true, "a", "pw", none, ["t"]⟩ (by decide)
